import Mathlib

/-
Verification of the DISE AI Analyzer (a single-file Streamlit application,
src/app.py) against its natural-language specification.

The application is shallowly embedded here:
  * the remote service is abstracted as an observation sequence
    `obs : Nat -> GeminiFile`, where `obs 0` is the handle returned by the
    initial `genai.upload_file` call and `obs (i+1)` is the handle returned
    by the i-th `genai.get_file` re-fetch inside the polling loop;
  * the Streamlit widgets are modelled as an event trace (`Event`), and the
    polling progress bar as an `Option (Nat × String)` (None = not displayed,
    Some (v, txt) = displayed with value v and label txt);
  * the JSON object returned by `analyze_video` is modelled as an association
    list of keys to JSON values; a missing-key access is Python's KeyError.
-/

namespace DiseApp

/-- A remote file handle as returned by the service: `file.name` and
`file.state.name` from src/app.py. -/
structure GeminiFile where
  name : String
  stateName : String
deriving DecidableEq

/-- Result of `upload_to_gemini` (src/app.py lines 41-57): either the function
returns a handle or it raises `ValueError`. `fetches` counts the
`genai.get_file` calls performed; `bar` is the state of the visible progress
bar when the function exits. -/
inductive PollResult where
  | returned (file : GeminiFile) (fetches : Nat) (bar : Option (Nat × String))
  | failed (msg : String) (fetches : Nat) (bar : Option (Nat × String))
deriving DecidableEq

/-- Number of `genai.get_file` calls performed by the poll. -/
def PollResult.fetchCount : PollResult → Nat
  | .returned _ n _ => n
  | .failed _ n _ => n

/-- Progress-bar state at exit of the poll. -/
def PollResult.finalBar : PollResult → Option (Nat × String)
  | .returned _ _ b => b
  | .failed _ _ b => b

/-- The `for percent_complete in range(100)` loop of `upload_to_gemini`
(src/app.py lines 46-57). `fetched` is the number of `get_file` calls already
performed (equals the loop variable `percent_complete` at entry of an
iteration), `rem` the remaining iterations, `bar` the current progress-bar
state. Each iteration fetches `obs (fetched+1)` (the local `file` variable),
returns it if its state is "ACTIVE", raises if "FAILED", otherwise updates the
bar to `percent_complete + 1` with the state label and continues. When the
loop exhausts, the last fetched handle is returned with the bar untouched. -/
def pollAux (obs : Nat → GeminiFile) : Nat → Nat → Option (Nat × String) → PollResult
  | fetched, 0, bar => .returned (obs fetched) fetched bar
  | fetched, rem + 1, _bar =>
    if (obs (fetched + 1)).stateName = "ACTIVE" then
      .returned (obs (fetched + 1)) (fetched + 1) none
    else if (obs (fetched + 1)).stateName = "FAILED" then
      .failed "Falha no processamento do Google." (fetched + 1) none
    else
      pollAux obs (fetched + 1) rem
        (some (fetched + 1, "Processando... " ++ (obs (fetched + 1)).stateName))

/-- `upload_to_gemini` (src/app.py lines 41-57): upload (producing `obs 0`),
create the bar at 0 with the upload label, then run the 100-iteration poll. -/
def upload_to_gemini (obs : Nat → GeminiFile) : PollResult :=
  pollAux obs 0 100 (some (0, "Enviando para a IA..."))

/-- Observation sequence in which every observed state is "PROCESSING". -/
def obsAllProcessing : Nat → GeminiFile :=
  fun _ => ⟨"files/demo", "PROCESSING"⟩

/-- Observation sequence in which every observed state is "FAILED" (in
particular the initial upload response, observation position 1, is FAILED). -/
def obsAllFailed : Nat → GeminiFile :=
  fun _ => ⟨"files/demo", "FAILED"⟩

/-- Observation sequence PROCESSING, PROCESSING, ACTIVE, ACTIVE, ... -/
def obsReady : Nat → GeminiFile :=
  fun i => ⟨"files/demo", if 2 ≤ i then "ACTIVE" else "PROCESSING"⟩

/-- The fixed model identifier (src/app.py line 13). -/
def MODEL_NAME : String := "gemini-flash-lite-latest"

/-- A JSON value as produced by `json.loads` on the model response. The
analysis schema only involves integers and strings; null and booleans are
included for completeness of the error cases. -/
inductive JVal where
  | jnull
  | jbool (b : Bool)
  | jint (n : Int)
  | jstr (s : String)
deriving DecidableEq

/-- Python `str()` as applied when a value is interpolated into an f-string. -/
def pyStr : JVal → String
  | .jnull => "None"
  | .jbool true => "True"
  | .jbool false => "False"
  | .jint n => toString n
  | .jstr s => s

/-- A parsed JSON object: association list of keys to values. -/
abbrev Json := List (String × JVal)

/-- Python dict subscript lookup: `result[key]` yields the bound value, or
raises KeyError when the key is absent. -/
def lookupJ : Json → String → Option JVal
  | [], _ => none
  | (k, v) :: rest, key => if k = key then some v else lookupJ rest key

/-- The text of Python's `str(KeyError(key))`: the key wrapped in single
quotes (U+0027). -/
def keyErr (k : String) : String := "\x27" ++ k ++ "\x27"

/-- One background band of the gauge (a `steps` entry of the plotly figure,
src/app.py lines 101-105). -/
structure GaugeStep where
  lo : Int
  hi : Int
  color : String
deriving DecidableEq

/-- The plotly indicator figure built by `create_gauge_chart` (src/app.py
lines 89-114), with each configured attribute as a field. The axis lower
bound is the literal `None` of the source (`Option.none` here); the charting
library fills in its default for it. -/
structure GaugeFig where
  mode : String
  value : JVal
  titleText : String
  titleFontSize : Nat
  domainX : Int × Int
  domainY : Int × Int
  axisRangeLo : Option Int
  axisRangeHi : Int
  axisTickwidth : Nat
  barColor : String
  bgcolor : String
  borderwidth : Nat
  bordercolor : String
  steps : List GaugeStep
  thresholdLineColor : String
  thresholdLineWidth : Nat
  thresholdThickness : Rat
  thresholdValue : JVal
  height : Nat
  marginL : Nat
  marginR : Nat
  marginT : Nat
  marginB : Nat
deriving DecidableEq

/-- `create_gauge_chart(value)` (src/app.py lines 89-114). -/
def create_gauge_chart (value : JVal) : GaugeFig where
  mode := "gauge+number"
  value := value
  titleText := "<b>Grau de Obstrução</b>"
  titleFontSize := 20
  domainX := (0, 1)
  domainY := (0, 1)
  axisRangeLo := none
  axisRangeHi := 100
  axisTickwidth := 1
  barColor := "#8B0000"
  bgcolor := "white"
  borderwidth := 2
  bordercolor := "#ddd"
  steps := [⟨0, 50, "#EEF9E7"⟩, ⟨50, 75, "#FFF4E5"⟩, ⟨75, 100, "#FDECEC"⟩]
  thresholdLineColor := "red"
  thresholdLineWidth := 4
  thresholdThickness := (3 : Rat) / 4
  thresholdValue := value
  height := 280
  marginL := 30
  marginR := 30
  marginT := 50
  marginB := 10

/-- The fixed part of the "Estrutura" card HTML before the interpolated field
(src/app.py lines 149-154). -/
def estCardPre : String :=
  "\n                        <div style=\"background-color:#f0f2f6; padding:10px; border-radius:10px; text-align:center;\">\n                            <span style=\"font-size:12px; color:#555;\">Estrutura</span><br>\n                            <span style=\"font-size:16px; font-weight:bold; color:#333;\">"

/-- The fixed part of the "Estrutura" card HTML after the interpolated field. -/
def estCardSuf : String :=
  "</span>\n                        </div>\n                        "

/-- The "Estrutura" card: the f-string of src/app.py lines 149-154 with
`result[\x27estrutura_colapsada\x27]` interpolated verbatim. -/
def estruturaCard (s : String) : String := estCardPre ++ s ++ estCardSuf

/-- The fixed part of the "Padrão" card HTML before the interpolated field
(src/app.py lines 157-162). -/
def padCardPre : String :=
  "\n                        <div style=\"background-color:#f0f2f6; padding:10px; border-radius:10px; text-align:center;\">\n                            <span style=\"font-size:12px; color:#555;\">Padrão</span><br>\n                            <span style=\"font-size:16px; font-weight:bold; color:#333;\">"

/-- The fixed part of the "Padrão" card HTML after the interpolated field. -/
def padCardSuf : String :=
  "</span>\n                        </div>\n                        "

/-- The "Padrão" card: the f-string of src/app.py lines 157-162 with
`result[\x27padrao_colapso\x27]` interpolated verbatim. -/
def padraoCard (s : String) : String := padCardPre ++ s ++ padCardSuf

/-- Observable actions of the application: Streamlit widget renderings and
the outbound remote calls. -/
inductive Event where
  | success (s : String)
  | warning (s : String)
  | errorMsg (s : String)
  | caption (s : String)
  | textInputShown
  | configure
  | remoteUpload
  | remoteGenerate
  | chart (fig : GaugeFig)
  | markdown (s : String)
  | write (s : String)
deriving DecidableEq

/-- The rendering pass of the analyze handler after `analyze_video` returned
`result` (src/app.py lines 143-168): success banner, gauge, the two cards,
then the expander with the narrative and the confidence caption. Dict
subscripts are evaluated left to right; the first missing key raises KeyError,
which aborts the pass, keeping the events already emitted and producing the
error text. Returns the emitted events and the pending exception text, if
any. -/
def renderEvents (result : Json) : List Event × Option String :=
  match lookupJ result "obstrucao_percentual" with
  | none => ([.success "Análise Finalizada"], some (keyErr "obstrucao_percentual"))
  | some v =>
    match lookupJ result "estrutura_colapsada" with
    | none =>
      ([.success "Análise Finalizada", .chart (create_gauge_chart v)],
        some (keyErr "estrutura_colapsada"))
    | some e =>
      match lookupJ result "padrao_colapso" with
      | none =>
        ([.success "Análise Finalizada", .chart (create_gauge_chart v),
          .markdown (estruturaCard (pyStr e))],
          some (keyErr "padrao_colapso"))
      | some p =>
        match lookupJ result "analise_clinica" with
        | none =>
          ([.success "Análise Finalizada", .chart (create_gauge_chart v),
            .markdown (estruturaCard (pyStr e)), .markdown (padraoCard (pyStr p)),
            .write ""],
            some (keyErr "analise_clinica"))
        | some a =>
          match lookupJ result "nivel_confianca" with
          | none =>
            ([.success "Análise Finalizada", .chart (create_gauge_chart v),
              .markdown (estruturaCard (pyStr e)), .markdown (padraoCard (pyStr p)),
              .write "", .write (pyStr a)],
              some (keyErr "nivel_confianca"))
          | some c =>
            ([.success "Análise Finalizada", .chart (create_gauge_chart v),
              .markdown (estruturaCard (pyStr e)), .markdown (padraoCard (pyStr p)),
              .write "", .write (pyStr a),
              .caption ("Nível de Confiança da IA: **" ++ pyStr c ++ "%**")],
              none)

/-- The `try` block of the analyze handler (src/app.py lines 138-168):
`genai.configure`, `upload_to_gemini` (the remote upload plus the poll; a
raised ValueError carries its message out), then `analyze_video` (the remote
generate call plus JSON parse, abstracted as `analyzeRes`), then the render
pass. Returns the emitted events and the pending exception text, if any. -/
def tryBody (obs : Nat → GeminiFile) (analyzeRes : Except String Json) :
    List Event × Option String :=
  match upload_to_gemini obs with
  | .failed msg _ _ => ([.configure, .remoteUpload], some msg)
  | .returned _ _ _ =>
    match analyzeRes with
    | .error msg => ([.configure, .remoteUpload, .remoteGenerate], some msg)
    | .ok result =>
      ([.configure, .remoteUpload, .remoteGenerate] ++ (renderEvents result).1,
        (renderEvents result).2)

/-- The analyze button handler (src/app.py lines 134-171): with a falsy
(empty) credential it only shows the configuration error; otherwise it runs
the `try` block and, when an exception escapes, appends the top-level
`st.error(f"Erro: ...")` banner. -/
def clickAnalyze (apiKey : String) (obs : Nat → GeminiFile)
    (analyzeRes : Except String Json) : List Event :=
  if apiKey = "" then
    [.errorMsg "Configure a API Key na barra lateral ou nos Secrets."]
  else
    match (tryBody obs analyzeRes).2 with
    | none => (tryBody obs analyzeRes).1
    | some msg => (tryBody obs analyzeRes).1 ++ [.errorMsg ("Erro: " ++ msg)]

/-- Python truthiness of the `api_key` variable while it may still be `None`:
`not api_key` is true for `None` and for the empty string. -/
def pyFalsyOpt : Option String → Bool
  | none => true
  | some s => s = ""

/-- The guarded secrets read (src/app.py lines 23-29): when the secrets store
is readable and holds "GOOGLE_API_KEY", `api_key` becomes that value and the
success indicator is shown; when the store is unreadable the exception is
swallowed, and when the key is absent nothing happens. -/
def storeLookup : Bool → Option String → Option String × List Event
  | true, some v => (some v, [.success "🔑 API Key detectada no sistema"])
  | true, none => (none, [])
  | false, _ => (none, [])

/-- The model caption always shown at the bottom of the sidebar
(src/app.py line 37). -/
def modelCaption : String := "🤖 Modelo Ativo: **" ++ MODEL_NAME ++ "**"

/-- The sidebar credential resolver (src/app.py lines 16-37).
`storeAvailable` models whether `st.secrets` can be read at all (the
try/except swallows the failure when no secrets file exists); `storeVal`
models the value bound to "GOOGLE_API_KEY" when present; `operatorInput` is
the text entered in the masked input (the widget returns "" when empty).
Returns the final resolved `api_key` string together with the sidebar events:
the success indicator when the store yields the key, the masked input when
the key is still falsy (`not api_key`), the warning when the input is also
empty, and the model caption. -/
def resolveCredential (storeAvailable : Bool) (storeVal : Option String)
    (operatorInput : String) : String × List Event :=
  if pyFalsyOpt (storeLookup storeAvailable storeVal).1 then
    if operatorInput = "" then
      (operatorInput,
        (storeLookup storeAvailable storeVal).2 ++
          [.textInputShown,
           .warning "⚠️ Insira a chave ou configure os Secrets.",
           .caption modelCaption])
    else
      (operatorInput,
        (storeLookup storeAvailable storeVal).2 ++
          [.textInputShown, .caption modelCaption])
  else
    ((storeLookup storeAvailable storeVal).1.getD "",
      (storeLookup storeAvailable storeVal).2 ++ [.caption modelCaption])

/-- If every state fetched during the remaining `rem` iterations is
non-terminal, the loop exhausts and returns the last fetched handle with
`fetched + rem` total fetches. -/
theorem pollAux_skip (obs : Nat → GeminiFile) :
    ∀ (rem fetched : Nat) (bar : Option (Nat × String)),
      (∀ i, fetched < i → i ≤ fetched + rem →
        (obs i).stateName ≠ "ACTIVE" ∧ (obs i).stateName ≠ "FAILED") →
      ∃ b, pollAux obs fetched rem bar =
        .returned (obs (fetched + rem)) (fetched + rem) b := by
  intro rem
  induction rem with
  | zero =>
    intro fetched bar _
    exact ⟨bar, by simp [pollAux]⟩
  | succ r ih =>
    intro fetched bar h
    have hN := h (fetched + 1) (by omega) (by omega)
    simp only [pollAux]
    rw [if_neg hN.1, if_neg hN.2]
    have h' : ∀ i, fetched + 1 < i → i ≤ fetched + 1 + r →
        (obs i).stateName ≠ "ACTIVE" ∧ (obs i).stateName ≠ "FAILED" := by
      intro i hi1 hi2
      exact h i (by omega) (by omega)
    obtain ⟨b, hb⟩ := ih (fetched + 1)
      (some (fetched + 1, "Processando... " ++ (obs (fetched + 1)).stateName)) h'
    refine ⟨b, ?_⟩
    rw [hb]
    have : fetched + 1 + r = fetched + (r + 1) := by omega
    rw [this]

/-- If the first terminal state among the fetched observations is a "FAILED"
at fetch index m (1 ≤ m ≤ rem), the loop raises there, having performed
exactly `fetched + m` fetches, with the bar cleared. -/
theorem pollAux_fail (obs : Nat → GeminiFile) :
    ∀ (m : Nat), 1 ≤ m →
    ∀ (fetched rem : Nat) (bar : Option (Nat × String)), m ≤ rem →
      (obs (fetched + m)).stateName = "FAILED" →
      (∀ i, fetched < i → i < fetched + m →
        (obs i).stateName ≠ "ACTIVE" ∧ (obs i).stateName ≠ "FAILED") →
      pollAux obs fetched rem bar =
        .failed "Falha no processamento do Google." (fetched + m) none := by
  intro m
  induction m with
  | zero => intro h; omega
  | succ n ih =>
    intro _ fetched rem bar h2 hF hA
    obtain ⟨r, rfl⟩ : ∃ r, rem = r + 1 := ⟨rem - 1, by omega⟩
    by_cases hn : n = 0
    · subst hn
      simp only [pollAux]
      rw [hF]
      simp
    · have hN := hA (fetched + 1) (by omega) (by omega)
      simp only [pollAux]
      rw [if_neg hN.1, if_neg hN.2]
      have hF' : (obs (fetched + 1 + n)).stateName = "FAILED" := by
        rw [show fetched + 1 + n = fetched + (n + 1) by omega]
        exact hF
      have hA' : ∀ i, fetched + 1 < i → i < fetched + 1 + n →
          (obs i).stateName ≠ "ACTIVE" ∧ (obs i).stateName ≠ "FAILED" := by
        intro i hi1 hi2
        exact hA i (by omega) (by omega)
      have := ih (by omega) (fetched + 1) r
        (some (fetched + 1, "Processando... " ++ (obs (fetched + 1)).stateName))
        (by omega) hF' hA'
      rw [this]
      have : fetched + 1 + n = fetched + (n + 1) := by omega
      rw [this]

/-- If the first terminal state among the fetched observations is an "ACTIVE"
at fetch index m (1 ≤ m ≤ rem), the loop returns that handle there, having
performed exactly `fetched + m` fetches, with the bar cleared. -/
theorem pollAux_active (obs : Nat → GeminiFile) :
    ∀ (m : Nat), 1 ≤ m →
    ∀ (fetched rem : Nat) (bar : Option (Nat × String)), m ≤ rem →
      (obs (fetched + m)).stateName = "ACTIVE" →
      (∀ i, fetched < i → i < fetched + m →
        (obs i).stateName ≠ "ACTIVE" ∧ (obs i).stateName ≠ "FAILED") →
      pollAux obs fetched rem bar =
        .returned (obs (fetched + m)) (fetched + m) none := by
  intro m
  induction m with
  | zero => intro h; omega
  | succ n ih =>
    intro _ fetched rem bar h2 hACT hA
    obtain ⟨r, rfl⟩ : ∃ r, rem = r + 1 := ⟨rem - 1, by omega⟩
    by_cases hn : n = 0
    · subst hn
      simp only [pollAux]
      rw [hACT]
      simp
    · have hN := hA (fetched + 1) (by omega) (by omega)
      simp only [pollAux]
      rw [if_neg hN.1, if_neg hN.2]
      have hACT' : (obs (fetched + 1 + n)).stateName = "ACTIVE" := by
        rw [show fetched + 1 + n = fetched + (n + 1) by omega]
        exact hACT
      have hA' : ∀ i, fetched + 1 < i → i < fetched + 1 + n →
          (obs i).stateName ≠ "ACTIVE" ∧ (obs i).stateName ≠ "FAILED" := by
        intro i hi1 hi2
        exact hA i (by omega) (by omega)
      have := ih (by omega) (fetched + 1) r
        (some (fetched + 1, "Processando... " ++ (obs (fetched + 1)).stateName))
        (by omega) hACT' hA'
      rw [this]
      have : fetched + 1 + n = fetched + (n + 1) := by omega
      rw [this]

/-- Invariant of the loop: whenever the loop exits by raising on "FAILED" the
bar is cleared, and whenever it exits returning a handle whose state is
"ACTIVE" the bar is cleared (the only way to return an "ACTIVE" handle is the
early-return branch, provided the handle held at entry is not already
"ACTIVE" or at least one iteration remains). -/
theorem pollAux_barNone (obs : Nat → GeminiFile) :
    ∀ (rem fetched : Nat) (bar : Option (Nat × String)),
      ((obs fetched).stateName ≠ "ACTIVE" ∨ 0 < rem) →
      (∀ msg n b, pollAux obs fetched rem bar = .failed msg n b → b = none) ∧
      (∀ f n b, pollAux obs fetched rem bar = .returned f n b →
        f.stateName = "ACTIVE" → b = none) := by
  intro rem
  induction rem with
  | zero =>
    intro fetched bar h
    have h' : (obs fetched).stateName ≠ "ACTIVE" := by
      rcases h with h | h
      · exact h
      · omega
    constructor
    · intro msg n b hEq
      simp [pollAux] at hEq
    · intro f n b hEq hAct
      simp only [pollAux] at hEq
      obtain ⟨hf, _, hb⟩ := PollResult.returned.inj hEq
      rw [← hf] at hAct
      exact absurd hAct h'
  | succ r ih =>
    intro fetched bar _
    by_cases hACT : (obs (fetched + 1)).stateName = "ACTIVE"
    · constructor
      · intro msg n b hEq
        simp only [pollAux] at hEq
        rw [if_pos hACT] at hEq
        cases hEq
      · intro f n b hEq _
        simp only [pollAux] at hEq
        rw [if_pos hACT] at hEq
        exact (PollResult.returned.inj hEq).2.2.symm
    · by_cases hF : (obs (fetched + 1)).stateName = "FAILED"
      · constructor
        · intro msg n b hEq
          simp only [pollAux] at hEq
          rw [if_neg hACT, if_pos hF] at hEq
          exact (PollResult.failed.inj hEq).2.2.symm
        · intro f n b hEq _
          simp only [pollAux] at hEq
          rw [if_neg hACT, if_pos hF] at hEq
          cases hEq
      · have step : pollAux obs fetched (r + 1) bar =
            pollAux obs (fetched + 1) r
              (some (fetched + 1, "Processando... " ++ (obs (fetched + 1)).stateName)) := by
          simp only [pollAux]
          rw [if_neg hACT, if_neg hF]
        rw [step]
        exact ih (fetched + 1)
          (some (fetched + 1, "Processando... " ++ (obs (fetched + 1)).stateName))
          (Or.inl hACT)

/-- C1: for a state sequence in which none of the observations (the upload
response and all 100 re-fetched states) is ACTIVE or FAILED, `upload_to_gemini`
terminates after exactly 100 poll iterations (100 `get_file` fetches), raises
nothing, and returns the last-observed, non-terminal handle `obs 100`. -/
theorem upload_poll_exhaustion_returns_last (obs : Nat → GeminiFile)
    (h : ∀ i, i ≤ 100 → (obs i).stateName ≠ "ACTIVE" ∧ (obs i).stateName ≠ "FAILED") :
    ∃ b, upload_to_gemini obs = .returned (obs 100) 100 b ∧
      (obs 100).stateName ≠ "ACTIVE" ∧ (obs 100).stateName ≠ "FAILED" := by
  obtain ⟨b, hb⟩ := pollAux_skip obs 100 0 (some (0, "Enviando para a IA..."))
    (by intro i hi1 hi2; exact h i (by omega))
  exact ⟨b, hb, h 100 (by omega)⟩

/-- C1 witness: the all-PROCESSING sequence exhausts the loop and the
PROCESSING handle fetched last is returned. -/
theorem upload_poll_exhaustion_returns_last_witness :
    ∃ b, upload_to_gemini obsAllProcessing =
        .returned (obsAllProcessing 100) 100 b ∧
      (obsAllProcessing 100).stateName ≠ "ACTIVE" ∧
      (obsAllProcessing 100).stateName ≠ "FAILED" :=
  upload_poll_exhaustion_returns_last obsAllProcessing
    (by intro i _; exact ⟨by simp [obsAllProcessing], by simp [obsAllProcessing]⟩)

/-- C2 counterexample: for the sequence whose very first observation (the
initial upload response, observation position k = 1) is already FAILED, the
poller does not raise upon that observation with no further fetches: it
performs a further `get_file` fetch (fetch count 1, not 0) and only raises on
the re-fetched state. -/
theorem upload_poll_failed_at_first_observation_cex :
    (obsAllFailed 0).stateName = "FAILED" ∧
    upload_to_gemini obsAllFailed =
      .failed "Falha no processamento do Google." 1 none ∧
    (upload_to_gemini obsAllFailed).fetchCount ≠ 0 := by
  refine ⟨rfl, rfl, ?_⟩
  decide

/-- C2 (amended): if the first FAILED state appears at observation position
k = m + 1 with 1 ≤ m ≤ 100 — i.e. at the m-th re-fetched state, the only
observations the loop inspects — and no earlier re-fetched observation is
ACTIVE or FAILED, then the poller raises the processing-failure condition upon
that observation, having performed exactly m fetches and no more. -/
theorem upload_poll_failed_raises (obs : Nat → GeminiFile) (m : Nat)
    (h1 : 1 ≤ m) (h2 : m ≤ 100)
    (hF : (obs m).stateName = "FAILED")
    (hA : ∀ i, 1 ≤ i → i < m →
      (obs i).stateName ≠ "ACTIVE" ∧ (obs i).stateName ≠ "FAILED") :
    upload_to_gemini obs = .failed "Falha no processamento do Google." m none := by
  have := pollAux_fail obs m h1 0 100 (some (0, "Enviando para a IA...")) h2
    (by rw [Nat.zero_add]; exact hF)
    (by intro i hi1 hi2; exact hA i (by omega) (by omega))
  rw [Nat.zero_add] at this
  exact this

/-- C2 (amended) witness: first FAILED at the first re-fetched observation
(observation position 2): the poller raises after exactly one fetch. -/
theorem upload_poll_failed_raises_witness :
    upload_to_gemini obsAllFailed =
      .failed "Falha no processamento do Google." 1 none :=
  upload_poll_failed_raises obsAllFailed 1 (by decide) (by decide) (by decide)
    (by intro i hi1 hi2; exact absurd hi1 (by omega))

/-- C3: for the observation sequence PROCESSING, PROCESSING, ACTIVE (upload
response then re-fetched states), the poller returns the ACTIVE handle after
exactly 3 observations (2 `get_file` fetches) and performs no further fetches;
the progress bar is cleared. -/
theorem upload_poll_active_after_three (obs : Nat → GeminiFile)
    (_h0 : (obs 0).stateName = "PROCESSING")
    (h1 : (obs 1).stateName = "PROCESSING")
    (h2 : (obs 2).stateName = "ACTIVE") :
    upload_to_gemini obs = .returned (obs 2) 2 none := by
  have := pollAux_active obs 2 (by omega) 0 100 (some (0, "Enviando para a IA..."))
    (by omega) (by rw [Nat.zero_add]; exact h2)
    (by
      intro i hi1 hi2
      have : i = 1 := by omega
      subst this
      rw [h1]
      exact ⟨by decide, by decide⟩)
  rw [Nat.zero_add] at this
  exact this

/-- C3 witness: the concrete sequence PROCESSING, PROCESSING, ACTIVE, ... -/
theorem upload_poll_active_after_three_witness :
    upload_to_gemini obsReady = .returned (obsReady 2) 2 none :=
  upload_poll_active_after_three obsReady rfl rfl rfl

set_option maxRecDepth 4096 in
/-- C8 counterexample: on the exhaustion exit path the progress bar is NOT
cleared: for the all-PROCESSING sequence the poller returns a handle while the
bar is still displayed (at value 100 with the processing label). -/
theorem upload_poll_bar_not_cleared_on_exhaustion_cex :
    upload_to_gemini obsAllProcessing =
      .returned (obsAllProcessing 100) 100
        (some (100, "Processando... PROCESSING")) ∧
    (upload_to_gemini obsAllProcessing).finalBar ≠ none := by
  refine ⟨rfl, ?_⟩
  decide

/-- C8 (amended): the poller clears the progress bar on the two checked exit
paths — when it raises the processing-failure condition on a FAILED state and
when it returns a handle observed ACTIVE — but not on the loop-exhaustion
return path. -/
theorem upload_poll_bar_cleared_on_terminal_exits (obs : Nat → GeminiFile) :
    (∀ msg n b, upload_to_gemini obs = .failed msg n b → b = none) ∧
    (∀ f n b, upload_to_gemini obs = .returned f n b →
      f.stateName = "ACTIVE" → b = none) :=
  pollAux_barNone obs 100 0 (some (0, "Enviando para a IA...")) (Or.inr (by omega))

/-- C8 (amended) witness: at the all-FAILED sequence the raise-path exits with
the bar cleared. -/
theorem upload_poll_bar_cleared_on_terminal_exits_witness :
    (upload_to_gemini obsAllFailed).finalBar = none :=
  (upload_poll_bar_cleared_on_terminal_exits obsAllFailed).1
    "Falha no processamento do Google." 1
    (upload_to_gemini obsAllFailed).finalBar (by decide)

/-- Whatever the remote outcomes, the `try` block first configures the client
and issues the remote upload: its trace starts with those two actions. -/
theorem tryBody_head (obs : Nat → GeminiFile) (analyzeRes : Except String Json) :
    ∃ t, (tryBody obs analyzeRes).1 = .configure :: .remoteUpload :: t := by
  unfold tryBody
  cases upload_to_gemini obs with
  | failed msg n b => exact ⟨[], rfl⟩
  | returned f n b =>
    cases analyzeRes with
    | error msg => exact ⟨[.remoteGenerate], rfl⟩
    | ok result => exact ⟨.remoteGenerate :: (renderEvents result).1, rfl⟩

/-- With a non-empty credential, the handler reaches the remote upload. -/
theorem clickAnalyze_remoteUpload_mem (apiKey : String) (obs : Nat → GeminiFile)
    (analyzeRes : Except String Json) (h : apiKey ≠ "") :
    Event.remoteUpload ∈ clickAnalyze apiKey obs analyzeRes := by
  unfold clickAnalyze
  rw [if_neg h]
  obtain ⟨t, ht⟩ := tryBody_head obs analyzeRes
  split
  · rw [ht]; simp
  · rw [ht]; simp

/-- A store value that is not falsy resolves to a non-empty string. -/
theorem pyFalsyOpt_false_getD (o : Option String) (h : pyFalsyOpt o = false) :
    o.getD "" ≠ "" := by
  cases o with
  | none => simp [pyFalsyOpt] at h
  | some s =>
    simp only [pyFalsyOpt, decide_eq_false_iff_not] at h
    simpa using h

/-- Whenever the resolver ends with an empty credential, the sidebar showed
the missing-key warning. -/
theorem resolveCredential_empty_warning (sa : Bool) (sv : Option String)
    (inp : String) (h : (resolveCredential sa sv inp).1 = "") :
    Event.warning "⚠️ Insira a chave ou configure os Secrets." ∈
      (resolveCredential sa sv inp).2 := by
  unfold resolveCredential at h ⊢
  by_cases hp : pyFalsyOpt (storeLookup sa sv).1 = true
  · rw [if_pos hp] at h ⊢
    by_cases hi : inp = ""
    · rw [if_pos hi]
      simp
    · rw [if_neg hi] at h
      exact absurd h hi
  · rw [if_neg hp] at h
    exact absurd h (pyFalsyOpt_false_getD _ (Bool.not_eq_true _ |>.mp hp))

/-- C4: for every credential state, the analyze click reaches the remote
upload iff the resolved credential string is non-empty; when it is empty, the
sidebar shows the missing-key warning, the handler shows the configuration
error, and no remote call (upload or generate) appears in the handler
trace. -/
theorem credential_gates_remote_calls (storeAvailable : Bool)
    (storeVal : Option String) (operatorInput : String)
    (obs : Nat → GeminiFile) (analyzeRes : Except String Json) :
    (Event.remoteUpload ∈
        clickAnalyze (resolveCredential storeAvailable storeVal operatorInput).1
          obs analyzeRes ↔
      (resolveCredential storeAvailable storeVal operatorInput).1 ≠ "") ∧
    ((resolveCredential storeAvailable storeVal operatorInput).1 = "" →
      Event.warning "⚠️ Insira a chave ou configure os Secrets." ∈
        (resolveCredential storeAvailable storeVal operatorInput).2 ∧
      Event.errorMsg "Configure a API Key na barra lateral ou nos Secrets." ∈
        clickAnalyze (resolveCredential storeAvailable storeVal operatorInput).1
          obs analyzeRes ∧
      Event.remoteUpload ∉
        clickAnalyze (resolveCredential storeAvailable storeVal operatorInput).1
          obs analyzeRes ∧
      Event.remoteGenerate ∉
        clickAnalyze (resolveCredential storeAvailable storeVal operatorInput).1
          obs analyzeRes) := by
  constructor
  · constructor
    · intro hmem hk
      rw [hk] at hmem
      simp [clickAnalyze] at hmem
    · intro hk
      exact clickAnalyze_remoteUpload_mem _ obs analyzeRes hk
  · intro hk
    refine ⟨resolveCredential_empty_warning _ _ _ hk, ?_, ?_, ?_⟩ <;>
      rw [hk] <;> simp [clickAnalyze]

/-- C4 witness: with no secrets store and no operator input the credential is
empty, the sidebar warns, and the handler blocks with the configuration
error. -/
theorem credential_gates_remote_calls_witness :
    Event.warning "⚠️ Insira a chave ou configure os Secrets." ∈
      (resolveCredential false none "").2 ∧
    Event.errorMsg "Configure a API Key na barra lateral ou nos Secrets." ∈
      clickAnalyze (resolveCredential false none "").1 obsReady (Except.ok []) :=
  ⟨((credential_gates_remote_calls false none "" obsReady (Except.ok [])).2 rfl).1,
   ((credential_gates_remote_calls false none "" obsReady (Except.ok [])).2 rfl).2.1⟩

/-- A five-key report missing only `nivel_confianca`. -/
def jNoNivel : Json :=
  [("obstrucao_percentual", .jint 82),
   ("estrutura_colapsada", .jstr "Palato Mole e Úvula"),
   ("padrao_colapso", .jstr "Concêntrico"),
   ("analise_clinica", .jstr "Obstrução grave do palato mole.")]

/-- C5: for every parsed response missing `nivel_confianca` (upload having
succeeded and the response parsed), the render pass aborts on a missing-key
access: the handler trace ends with the top-level error banner carrying the
KeyError text of a key absent from the response, and no confidence caption —
no silent default — is ever rendered. -/
theorem missing_nivel_surfaces_error (apiKey : String) (obs : Nat → GeminiFile)
    (j : Json) (f : GeminiFile) (n : Nat) (b : Option (Nat × String))
    (hk : apiKey ≠ "")
    (hup : upload_to_gemini obs = .returned f n b)
    (hmiss : lookupJ j "nivel_confianca" = none) :
    ∃ k evs, lookupJ j k = none ∧
      clickAnalyze apiKey obs (Except.ok j) =
        evs ++ [.errorMsg ("Erro: " ++ keyErr k)] ∧
      ∀ s, Event.caption s ∉ clickAnalyze apiKey obs (Except.ok j) := by
  cases h1 : lookupJ j "obstrucao_percentual" with
  | none =>
    refine ⟨"obstrucao_percentual",
      [.configure, .remoteUpload, .remoteGenerate, .success "Análise Finalizada"],
      h1, ?_, ?_⟩
    · simp [clickAnalyze, tryBody, hup, hk, renderEvents, h1]
    · intro s
      simp [clickAnalyze, tryBody, hup, hk, renderEvents, h1]
  | some v =>
    cases h2 : lookupJ j "estrutura_colapsada" with
    | none =>
      refine ⟨"estrutura_colapsada",
        [.configure, .remoteUpload, .remoteGenerate, .success "Análise Finalizada",
         .chart (create_gauge_chart v)], h2, ?_, ?_⟩
      · simp [clickAnalyze, tryBody, hup, hk, renderEvents, h1, h2]
      · intro s
        simp [clickAnalyze, tryBody, hup, hk, renderEvents, h1, h2]
    | some e =>
      cases h3 : lookupJ j "padrao_colapso" with
      | none =>
        refine ⟨"padrao_colapso",
          [.configure, .remoteUpload, .remoteGenerate, .success "Análise Finalizada",
           .chart (create_gauge_chart v), .markdown (estruturaCard (pyStr e))],
          h3, ?_, ?_⟩
        · simp [clickAnalyze, tryBody, hup, hk, renderEvents, h1, h2, h3]
        · intro s
          simp [clickAnalyze, tryBody, hup, hk, renderEvents, h1, h2, h3]
      | some p =>
        cases h4 : lookupJ j "analise_clinica" with
        | none =>
          refine ⟨"analise_clinica",
            [.configure, .remoteUpload, .remoteGenerate, .success "Análise Finalizada",
             .chart (create_gauge_chart v), .markdown (estruturaCard (pyStr e)),
             .markdown (padraoCard (pyStr p)), .write ""], h4, ?_, ?_⟩
          · simp [clickAnalyze, tryBody, hup, hk, renderEvents, h1, h2, h3, h4]
          · intro s
            simp [clickAnalyze, tryBody, hup, hk, renderEvents, h1, h2, h3, h4]
        | some a =>
          refine ⟨"nivel_confianca",
            [.configure, .remoteUpload, .remoteGenerate, .success "Análise Finalizada",
             .chart (create_gauge_chart v), .markdown (estruturaCard (pyStr e)),
             .markdown (padraoCard (pyStr p)), .write "", .write (pyStr a)],
            hmiss, ?_, ?_⟩
          · simp [clickAnalyze, tryBody, hup, hk, renderEvents, h1, h2, h3, h4, hmiss]
          · intro s
            simp [clickAnalyze, tryBody, hup, hk, renderEvents, h1, h2, h3, h4, hmiss]

/-- C5 witness: the concrete report lacking only `nivel_confianca`. -/
theorem missing_nivel_surfaces_error_witness :
    ∃ k evs, lookupJ jNoNivel k = none ∧
      clickAnalyze "chave" obsReady (Except.ok jNoNivel) =
        evs ++ [.errorMsg ("Erro: " ++ keyErr k)] ∧
      ∀ s, Event.caption s ∉ clickAnalyze "chave" obsReady (Except.ok jNoNivel) :=
  missing_nivel_surfaces_error "chave" obsReady jNoNivel (obsReady 2) 2 none
    (by decide) rfl rfl

/-- C6: the gauge figure is a pure function of the reported value with a
fixed layout: exactly the three background bands 0-50, 50-75 and 75-100, the
constant axis (upper bound 100, lower bound left to the library default), and
the threshold marker exactly at the reported value; in particular for 82 the
rendered value is 82, it lies inside the 75-100 band, and the threshold sits
at 82. -/
theorem gauge_chart_fixed_layout :
    (∀ v : JVal,
      (create_gauge_chart v).steps =
        [⟨0, 50, "#EEF9E7"⟩, ⟨50, 75, "#FFF4E5"⟩, ⟨75, 100, "#FDECEC"⟩] ∧
      (create_gauge_chart v).axisRangeLo = none ∧
      (create_gauge_chart v).axisRangeHi = 100 ∧
      (create_gauge_chart v).value = v ∧
      (create_gauge_chart v).thresholdValue = v) ∧
    (create_gauge_chart (.jint 82)).value = .jint 82 ∧
    (create_gauge_chart (.jint 82)).thresholdValue = .jint 82 ∧
    (⟨75, 100, "#FDECEC"⟩ : GaugeStep) ∈ (create_gauge_chart (.jint 82)).steps ∧
    (75 : Int) ≤ 82 ∧ (82 : Int) ≤ 100 := by
  refine ⟨fun v => ⟨rfl, rfl, rfl, rfl, rfl⟩, rfl, rfl, ?_, by decide, by decide⟩
  simp [create_gauge_chart]

/-- C7: each card embeds its report field verbatim between fixed delimiters —
the card text is the field string with no truncation and no re-encoding, and
the field can be recovered from the card exactly (the embedding is
injective). -/
theorem card_strings_displayed_verbatim :
    (∀ s, estruturaCard s = estCardPre ++ s ++ estCardSuf) ∧
    (∀ s, padraoCard s = padCardPre ++ s ++ padCardSuf) ∧
    Function.Injective estruturaCard ∧
    Function.Injective padraoCard := by
  refine ⟨fun s => rfl, fun s => rfl, ?_, ?_⟩
  · intro a b h
    unfold estruturaCard at h
    have h2 := congrArg String.data h
    simp only [String.data_append] at h2
    exact String.ext (List.append_cancel_left (List.append_cancel_right h2))
  · intro a b h
    unfold padraoCard at h
    have h2 := congrArg String.data h
    simp only [String.data_append] at h2
    exact String.ext (List.append_cancel_left (List.append_cancel_right h2))

/-- C7 witness: the sample field strings pass through the cards verbatim, and
recovery is exact. -/
theorem card_strings_displayed_verbatim_witness :
    estruturaCard "Palato Mole e Úvula" =
      estCardPre ++ "Palato Mole e Úvula" ++ estCardSuf ∧
    ("Concêntrico" : String) = "Concêntrico" :=
  ⟨card_strings_displayed_verbatim.1 "Palato Mole e Úvula",
   card_strings_displayed_verbatim.2.2.2
     (rfl : padraoCard "Concêntrico" = padraoCard "Concêntrico")⟩

/-- C9: rendering is not atomic on error — for a report carrying the gauge
value, both card fields, but no `nivel_confianca`, the success banner, gauge
and both cards are already in the trace before the missing-key access raises,
and the top-level handler appends the error banner after them without undoing
anything. -/
theorem partial_render_before_error (apiKey : String) (obs : Nat → GeminiFile)
    (j : Json) (f : GeminiFile) (n : Nat) (b : Option (Nat × String))
    (v e p : JVal)
    (hk : apiKey ≠ "")
    (hup : upload_to_gemini obs = .returned f n b)
    (h1 : lookupJ j "obstrucao_percentual" = some v)
    (h2 : lookupJ j "estrutura_colapsada" = some e)
    (h3 : lookupJ j "padrao_colapso" = some p)
    (h5 : lookupJ j "nivel_confianca" = none) :
    ∃ rest k, lookupJ j k = none ∧
      clickAnalyze apiKey obs (Except.ok j) =
        [.configure, .remoteUpload, .remoteGenerate,
         .success "Análise Finalizada", .chart (create_gauge_chart v),
         .markdown (estruturaCard (pyStr e)), .markdown (padraoCard (pyStr p)),
         .write ""] ++ rest ++ [.errorMsg ("Erro: " ++ keyErr k)] := by
  cases h4 : lookupJ j "analise_clinica" with
  | none =>
    refine ⟨[], "analise_clinica", h4, ?_⟩
    simp [clickAnalyze, tryBody, hup, hk, renderEvents, h1, h2, h3, h4]
  | some a =>
    refine ⟨[.write (pyStr a)], "nivel_confianca", h5, ?_⟩
    simp [clickAnalyze, tryBody, hup, hk, renderEvents, h1, h2, h3, h4, h5]

/-- C9 witness: the concrete report lacking only `nivel_confianca`. -/
theorem partial_render_before_error_witness :
    ∃ rest k, lookupJ jNoNivel k = none ∧
      clickAnalyze "chave" obsReady (Except.ok jNoNivel) =
        [.configure, .remoteUpload, .remoteGenerate,
         .success "Análise Finalizada", .chart (create_gauge_chart (.jint 82)),
         .markdown (estruturaCard (pyStr (.jstr "Palato Mole e Úvula"))),
         .markdown (padraoCard (pyStr (.jstr "Concêntrico"))),
         .write ""] ++ rest ++ [.errorMsg ("Erro: " ++ keyErr k)] :=
  partial_render_before_error "chave" obsReady jNoNivel (obsReady 2) 2 none
    (.jint 82) (.jstr "Palato Mole e Úvula") (.jstr "Concêntrico")
    (by decide) rfl rfl rfl rfl rfl

/-- C10: when the secrets store binds "GOOGLE_API_KEY" to the empty string,
the sidebar shows the success indicator AND still falls back to the masked
operator input (both indicators appear), and the analyze action is blocked —
its trace is exactly the configuration error — iff the finally resolved
string (the operator input) is still empty. -/
theorem empty_store_key_shows_both_and_blocks (inp : String)
    (obs : Nat → GeminiFile) (analyzeRes : Except String Json) :
    Event.success "🔑 API Key detectada no sistema" ∈
      (resolveCredential true (some "") inp).2 ∧
    Event.textInputShown ∈ (resolveCredential true (some "") inp).2 ∧
    ((clickAnalyze (resolveCredential true (some "") inp).1 obs analyzeRes =
        [.errorMsg "Configure a API Key na barra lateral ou nos Secrets."]) ↔
      inp = "") := by
  have hres1 : (resolveCredential true (some "") inp).1 = inp := by
    unfold resolveCredential
    by_cases hi : inp = "" <;> simp [storeLookup, pyFalsyOpt, hi]
  refine ⟨?_, ?_, ?_⟩
  · unfold resolveCredential
    by_cases hi : inp = "" <;> simp [storeLookup, pyFalsyOpt, hi]
  · unfold resolveCredential
    by_cases hi : inp = "" <;> simp [storeLookup, pyFalsyOpt, hi]
  · rw [hres1]
    constructor
    · intro hEq
      by_contra hi
      obtain ⟨t, ht⟩ := tryBody_head obs analyzeRes
      unfold clickAnalyze at hEq
      rw [if_neg hi] at hEq
      split at hEq
      · rw [ht] at hEq
        simp at hEq
      · rw [ht] at hEq
        simp at hEq
    · intro hi
      rw [hi]
      simp [clickAnalyze]

/-- C10 witness: the empty store value with empty operator input — both
indicators shown and the action blocked. -/
theorem empty_store_key_shows_both_and_blocks_witness :
    Event.success "🔑 API Key detectada no sistema" ∈
      (resolveCredential true (some "") "").2 ∧
    clickAnalyze (resolveCredential true (some "") "").1 obsReady (Except.ok []) =
      [.errorMsg "Configure a API Key na barra lateral ou nos Secrets."] :=
  ⟨(empty_store_key_shows_both_and_blocks "" obsReady (Except.ok [])).1,
   (empty_store_key_shows_both_and_blocks "" obsReady (Except.ok [])).2.2.mpr rfl⟩

end DiseApp
